import Mathlib

/-!
Shallow embedding of the AI analysis service of the fpjs-experiments
repository (class `AIService` in `src/components/Overview.tsx`), together
with proofs about the claims on its behaviour.

The service methods are translated as pure Lean functions.  The asynchronous
provider call (`analyzeWithOllama` / `analyzeWithOpenAI`) is modelled at its
return boundary by an `Except String String` parameter: `.ok text` is the
text the backend produced, `.error msg` is a thrown provider error (network
failure, non-success status, timeout).  The mutable configuration fields
`aiProvider` / `isAIAvailable` are passed as explicit arguments.

JavaScript specifics mirrored here:
* `String.prototype.includes`, `startsWith`, `trim`, `toLowerCase` (ASCII
  case mapping, as relevant to the keyword sets used by the source),
* object-as-counter `reduce` + `Object.entries` (first-seen key order;
  the JavaScript hoisting of integer-like keys is not modelled, no input in
  this development uses such keys),
* stable `Array.prototype.sort` with comparator `(a, b) => b - a`,
* `Number.prototype.toFixed` modelled on exact rationals with the
  round-half-up rule of the specification,
* `JSON.parse` modelled by an executable JSON parser, and the regex
  `/\x7b[\s\S]*\x7d/` by a first-brace-to-last-brace extractor.
-/

namespace FPJS

/-! ## JavaScript string primitives -/

/-- Whitespace characters removed by JavaScript `String.prototype.trim`. -/
def jsWsChar (c : Char) : Bool :=
  c == ' ' || c == '\t' || c == '\n' || c == '\r' ||
  c == '\u000B' || c == '\u000C' || c == '\u00A0' || c == '\uFEFF' ||
  c == '\u1680' || ('\u2000' ≤ c && c ≤ '\u200A') ||
  c == '\u2028' || c == '\u2029' || c == '\u202F' || c == '\u205F' ||
  c == '\u3000'

/-- JavaScript `s.trim()`. -/
def jsTrim (s : String) : String :=
  ⟨((s.data.dropWhile jsWsChar).reverse.dropWhile jsWsChar).reverse⟩

/-- Does the first list begin with the second? (character-list helper). -/
def isPre : List Char → List Char → Bool
  | [], _ => true
  | _ :: _, [] => false
  | a :: as, b :: bs => a == b && isPre as bs

/-- Substring occurrence on character lists. -/
def hasSubCh (needle : List Char) : List Char → Bool
  | [] => isPre needle []
  | b :: bs => isPre needle (b :: bs) || hasSubCh needle bs

/-- JavaScript `hay.includes(needle)`. -/
def incl (hay needle : String) : Bool :=
  hasSubCh needle.data hay.data

/-- JavaScript `s.startsWith(p)`. -/
def jsStarts (s p : String) : Bool :=
  isPre p.data s.data

/-- JavaScript `s.toLowerCase()` (ASCII case mapping). -/
def jsToLower (s : String) : String :=
  ⟨s.data.map Char.toLower⟩

/-- JavaScript `s.slice(0, n)` for a non-negative `n`. -/
def strTake (n : Nat) (s : String) : String :=
  ⟨s.data.take n⟩

/-- JavaScript `s.split('\n')` on character lists. -/
def splitNlCh : List Char → List (List Char)
  | [] => [[]]
  | c :: rest =>
    if c == '\n' then [] :: splitNlCh rest
    else
      match splitNlCh rest with
      | [] => [[c]]
      | g :: gs => (c :: g) :: gs

/-- JavaScript `s.split('\n')`. -/
def splitNl (s : String) : List String :=
  (splitNlCh s.data).map (fun cs => ⟨cs⟩)

/-- JavaScript `parts.join(sep)`. -/
def joinSep (sep : String) : List String → String
  | [] => ""
  | [x] => x
  | x :: y :: xs => x ++ sep ++ joinSep sep (y :: xs)

/-! ## Number formatting

`Number.prototype.toFixed(f)` picks the integer `n` with `n / 10^f`
closest to the value, the larger `n` on ties (round half up).  The source
only ever formats non-negative quantities; they are modelled as exact
rationals. -/

/-- JavaScript `x.toFixed(1)` for a non-negative rational. -/
def toFixed1 (q : ℚ) : String :=
  let m : Nat := (⌊q * 10 + 1 / 2⌋).toNat
  Nat.repr (m / 10) ++ "." ++ Nat.repr (m % 10)

/-- JavaScript `x.toFixed(2)` for a non-negative rational. -/
def toFixed2 (q : ℚ) : String :=
  let m : Nat := (⌊q * 100 + 1 / 2⌋).toNat
  let fracPart := m % 100
  Nat.repr (m / 100) ++ "." ++
    (if fracPart < 10 then ("0") ++ Nat.repr fracPart else Nat.repr fracPart)

/-! ## Data model

`interface FingerprintEvent` of `Overview.tsx`.  The `Date` field is kept
as its epoch-millisecond value; `number` fields are exact rationals. -/

structure FingerprintEvent where
  visitorId : String
  ipAddress : String
  requestId : String
  date : Int
  browser : String
  os : String
  country : String
  city : String
  confidence : ℚ
  vpnDetected : Bool
  botDetected : Bool
  linkedId : String
  url : String
  userAgent : String
  suspectScore : ℚ
deriving DecidableEq

/-- `interface ChartData` (`type` is renamed `ctype`, a Lean keyword clash);
a `{name, value}` point is a `String × Nat` pair — every value built by the
fallback paths is a count. -/
structure ChartData where
  ctype : String
  data : List (String × Nat)
  title : String
deriving DecidableEq

/-! ## Counting helpers

`csvData.reduce((acc, e) => \x7b acc[k] = (acc[k] || 0) + 1; return acc \x7d, \x7b\x7d)`
followed by `Object.entries` yields the distinct keys in first-seen order,
each paired with its total count.  `new Set(l).size` is the number of
distinct elements. -/

/-- Distinct elements in first-seen order (`Object.keys` / `Set` order). -/
def dedupAux (seen : List String) : List String → List String
  | [] => []
  | k :: ks => if k ∈ seen then dedupAux seen ks else k :: dedupAux (k :: seen) ks

/-- Distinct elements of a list, first occurrence kept. -/
def dedup (l : List String) : List String :=
  dedupAux [] l

/-- JavaScript `new Set(l).size`. -/
def setSize (l : List String) : Nat :=
  (dedup l).length

/-- The counter object built by the `reduce` calls, as `Object.entries`
returns it: first-seen key order with total counts. -/
def tally (keys : List String) : List (String × Nat) :=
  (dedup keys).map (fun k => (k, keys.count k))

/-- Insert into a descending-by-count list, after existing equal counts. -/
def insertDesc (x : String × Nat) : List (String × Nat) → List (String × Nat)
  | [] => [x]
  | y :: ys => if y.2 < x.2 then x :: y :: ys else y :: insertDesc x ys

/-- Stable descending sort by count: `entries.sort(([,a],[,b]) => b - a)`
(ECMAScript sort is stable, so ties keep first-seen order). -/
def sortDesc (l : List (String × Nat)) : List (String × Nat) :=
  l.foldl (fun acc x => insertDesc x acc) []

/-! ## AIService.generateFallbackAnswer

Branch bodies are factored into named definitions so the theorems can name
the selected category; the branch order and keyword sets are exactly those
of the source. -/

/-- The visitor/activity branch of `generateFallbackAnswer`. -/
def visitorAnswer (csvData : List FingerprintEvent) : String :=
  let uniqueVisitors := setSize (csvData.map (·.visitorId))
  "I can see " ++ (Nat.repr csvData.length ++ " total events from " ++
    Nat.repr uniqueVisitors ++
    " unique visitors. The most active visitor patterns show concentrated activity that could indicate regular users or potential automated behavior.")

/-- The security/vpn/bot branch of `generateFallbackAnswer`. -/
def securityAnswer (csvData : List FingerprintEvent) : String :=
  let vpnDetected := (csvData.filter (·.vpnDetected)).length
  let botDetected := (csvData.filter (·.botDetected)).length
  let pct : String :=
    if csvData.length == 0 then ("NaN")
    else toFixed1 ((((vpnDetected : ℚ) + (botDetected : ℚ)) / (csvData.length : ℚ)) * 100)
  "Security analysis shows " ++ (Nat.repr vpnDetected ++ " VPN connections and " ++
    Nat.repr botDetected ++ " bot detections out of " ++ Nat.repr csvData.length ++
    " total events. This represents " ++ pct ++ "% potential security threats.")

/-- The geographic branch of `generateFallbackAnswer`. -/
def geoAnswer (csvData : List FingerprintEvent) : String :=
  let uniqueCountries := setSize ((csvData.map (·.country)).filter (fun c => c != ""))
  let countryCounts := tally (csvData.map (fun e => if e.country == "" then ("Unknown") else e.country))
  let topCountries :=
    (sortDesc (countryCounts.filter (fun p => p.1 != "" && p.1 != "Unknown"))).take 3
  ("Geographic analysis shows ") ++ (Nat.repr uniqueCountries ++
    " different countries. The top countries by request volume are: " ++
    joinSep (", ") (topCountries.map (fun p => p.1 ++ " (" ++ Nat.repr p.2 ++ " requests)")) ++
    ". This distribution helps identify your global reach and detect unusual access patterns.")

/-- The browser/device branch of `generateFallbackAnswer`. -/
def browserAnswer (csvData : List FingerprintEvent) : String :=
  let browserKeys := csvData.map (fun e => if e.browser == "" then ("Unknown") else e.browser)
  let browserCounts := tally browserKeys
  let topBrowsers :=
    (sortDesc (browserCounts.filter (fun p => p.1 != "" && p.1 != "Unknown"))).take 3
  let knownCount := ((dedup browserKeys).filter (fun b => b != "Unknown")).length
  ("Browser analysis shows ") ++ (Nat.repr knownCount ++
    " different browsers in use. The most popular browsers are: " ++
    joinSep (", ") (topBrowsers.map (fun p => p.1 ++ " (" ++ Nat.repr p.2 ++ " requests)")) ++
    ". This helps understand your user\u0027s technology preferences and detect potential bot activity.")

/-- The default branch of `generateFallbackAnswer`. -/
def genericAnswer (csvData : List FingerprintEvent) : String :=
  "I\u0027ve analyzed your FingerprintJS dataset with " ++ (Nat.repr csvData.length ++
    " identification events. The data shows visitor patterns, geographic distribution, and security indicators that provide valuable insights into your user base and potential threats.")

/-- `AIService.generateFallbackAnswer` (source branch order:
visitor → security → geographic → browser → generic). -/
def generateFallbackAnswer (csvData : List FingerprintEvent) (question : String) : String :=
  let lowerQuestion := jsToLower question
  if incl lowerQuestion ("visitor") || incl lowerQuestion ("activity") then
    visitorAnswer csvData
  else if incl lowerQuestion ("security") || incl lowerQuestion ("vpn") || incl lowerQuestion ("bot") then
    securityAnswer csvData
  else if incl lowerQuestion ("geograph") || incl lowerQuestion ("location") || incl lowerQuestion ("country") then
    geoAnswer csvData
  else if incl lowerQuestion ("browser") || incl lowerQuestion ("device") then
    browserAnswer csvData
  else
    genericAnswer csvData

/-! ## AIService.generateFallbackChart -/

/-- Visitor branch chart: bar of top-10 visitors. -/
def visitorChart (csvData : List FingerprintEvent) : ChartData :=
  let visitorCounts := tally (csvData.map (·.visitorId))
  ⟨"bar",
   ((sortDesc visitorCounts).take 10).map (fun p => (strTake 8 p.1 ++ "...", p.2)),
   "Top 10 Visitors by Request Count"⟩

/-- Geographic branch chart: bar of top-8 known countries, or a
single `("No Data", 1)` placeholder point. -/
def geoChart (csvData : List FingerprintEvent) : ChartData :=
  let countryCounts := tally (csvData.map (fun e => if e.country == "" then ("Unknown") else e.country))
  let validCountryData :=
    (sortDesc (countryCounts.filter
      (fun p => p.1 != "" && p.1 != "Unknown" && p.2 != 0))).take 8
  ⟨"bar",
   if validCountryData.length != 0 then validCountryData else [("No Data", 1)],
   "Geographic Distribution by Country"⟩

/-- Security branch chart: pie of VPN/bot/clean, zero-count slices dropped. -/
def securityChart (csvData : List FingerprintEvent) : ChartData :=
  let securityData : List (String × Nat) :=
    [("VPN Detected", (csvData.filter (·.vpnDetected)).length),
     ("Bot Detected", (csvData.filter (·.botDetected)).length),
     ("Clean Requests", (csvData.filter (fun e => !e.vpnDetected && !e.botDetected)).length)]
  ⟨"pie", securityData.filter (fun p => p.2 != 0), "Security Threat Analysis"⟩

/-- Browser branch chart: bar of top-8 known browsers, or the placeholder. -/
def browserChart (csvData : List FingerprintEvent) : ChartData :=
  let browserCounts := tally (csvData.map (fun e => if e.browser == "" then ("Unknown") else e.browser))
  let validBrowserData :=
    (sortDesc (browserCounts.filter
      (fun p => p.1 != "" && p.1 != "Unknown" && p.2 != 0))).take 8
  ⟨"bar",
   if validBrowserData.length != 0 then validBrowserData else [("No Data", 1)],
   "Browser Usage Distribution"⟩

/-- Generic visualization-keyword chart: bar of top-8 visitors. -/
def activityChart (csvData : List FingerprintEvent) : ChartData :=
  let visitorCounts := tally (csvData.map (·.visitorId))
  ⟨"bar",
   ((sortDesc visitorCounts).take 8).map (fun p => (strTake 8 p.1 ++ "...", p.2)),
   "Visitor Activity Overview"⟩

/-- `AIService.generateFallbackChart` (source branch order:
visitor → geographic → security → browser → generic chart keywords → null;
note the geographic test comes before the security one, unlike the
fallback answer). -/
def generateFallbackChart (csvData : List FingerprintEvent) (question : String) :
    Option ChartData :=
  let lowerQuestion := jsToLower question
  if incl lowerQuestion ("visitor") || incl lowerQuestion ("activity") then
    some (visitorChart csvData)
  else if incl lowerQuestion ("location") || incl lowerQuestion ("country") ||
      incl lowerQuestion ("geographic") || incl lowerQuestion ("geograph") then
    some (geoChart csvData)
  else if incl lowerQuestion ("security") || incl lowerQuestion ("threat") ||
      incl lowerQuestion ("vpn") || incl lowerQuestion ("bot") then
    some (securityChart csvData)
  else if incl lowerQuestion ("browser") || incl lowerQuestion ("device") ||
      incl lowerQuestion ("os") then
    some (browserChart csvData)
  else if incl lowerQuestion ("chart") || incl lowerQuestion ("graph") ||
      incl lowerQuestion ("visualize") || incl lowerQuestion ("show me") then
    some (activityChart csvData)
  else
    none

/-! ## Question classifiers -/

/-- Keyword set of `AIService.questionRequiresChart`. -/
def chartKeywords : List String :=
  ["chart", "graph", "visualize", "show me", "display", "plot", "trend",
   "compare", "distribution", "percentage", "proportion", "breakdown",
   "top", "most", "highest", "lowest", "activity", "pattern"]

/-- `AIService.questionRequiresChart`. -/
def questionRequiresChart (question : String) : Bool :=
  let lowerQuestion := jsToLower question
  chartKeywords.any (fun k => incl lowerQuestion k)

/-- Keyword set of `AIService.isFastModeQuestion`. -/
def fastKeywords : List String :=
  ["total", "count", "how many", "number of", "summary", "overview",
   "basic", "simple", "quick", "fast"]

/-- `AIService.isFastModeQuestion`. -/
def isFastModeQuestion (question : String) : Bool :=
  let lowerQuestion := jsToLower question
  fastKeywords.any (fun k => incl lowerQuestion k)

/-! ## Data summaries -/

/-- `AIService.prepareDataSummary`.  The source additionally computes
`uniqueCities`, a top-OS list, a time range and a most-active-IPs list whose
results never reach the returned string; those dead computations are not
repeated here. -/
def prepareDataSummary (csvData : List FingerprintEvent) : String :=
  if csvData.length == 0 then
    ("No data available for analysis.")
  else if csvData.length ≤ 100 then
    ("Limited data available (") ++ (Nat.repr csvData.length ++
      " events). Detailed analysis requires more than 100 events for meaningful insights.")
  else
    let totalEvents := csvData.length
    let uniqueVisitors := setSize (csvData.map (·.visitorId))
    let uniqueIPs := setSize (csvData.map (·.ipAddress))
    let uniqueCountries := setSize ((csvData.map (·.country)).filter (fun c => c != ""))
    let vpnDetected := (csvData.filter (·.vpnDetected)).length
    let botDetected := (csvData.filter (·.botDetected)).length
    let cleanRequests := (csvData.filter (fun e => !e.vpnDetected && !e.botDetected)).length
    let avgConfidence : ℚ :=
      (csvData.foldl (fun sum e => sum + e.confidence) 0) / (totalEvents : ℚ)
    let highConfidence := (csvData.filter (fun e => (8 : ℚ) / 10 ≤ e.confidence)).length
    let lowConfidence := (csvData.filter (fun e => e.confidence < (6 : ℚ) / 10)).length
    let topCountries :=
      (sortDesc ((tally (csvData.map (fun e => if e.country == "" then ("Unknown") else e.country))).filter
        (fun p => p.1 != "" && p.1 != "Unknown"))).take 5
    let topBrowsers :=
      (sortDesc ((tally (csvData.map (fun e => if e.browser == "" then ("Unknown") else e.browser))).filter
        (fun p => p.1 != "" && p.1 != "Unknown"))).take 5
    let mostActiveVisitors := (sortDesc (tally (csvData.map (·.visitorId)))).take 5
    ("Events: ") ++ (Nat.repr totalEvents ++ ", Visitors: " ++ Nat.repr uniqueVisitors ++
      ", IPs: " ++ Nat.repr uniqueIPs ++ ", Countries: " ++ Nat.repr uniqueCountries ++
      "\nSecurity: VPN " ++ Nat.repr vpnDetected ++ ", Bot " ++ Nat.repr botDetected ++
      ", Clean " ++ Nat.repr cleanRequests ++
      "\nConfidence: Avg " ++ toFixed2 avgConfidence ++ ", High " ++ Nat.repr highConfidence ++
      ", Low " ++ Nat.repr lowConfidence ++
      "\nTop Countries: " ++ joinSep (", ") (topCountries.map (fun p => p.1 ++ "(" ++ Nat.repr p.2 ++ ")")) ++
      "\nTop Browsers: " ++ joinSep (", ") (topBrowsers.map (fun p => p.1 ++ "(" ++ Nat.repr p.2 ++ ")")) ++
      "\nTop Visitors: " ++ joinSep (", ") (mostActiveVisitors.map (fun p => strTake 6 p.1 ++ "(" ++ Nat.repr p.2 ++ ")")))

/-- `AIService.prepareFastDataSummary`. -/
def prepareFastDataSummary (csvData : List FingerprintEvent) : String :=
  if csvData.length == 0 then
    ("No data available.")
  else if csvData.length ≤ 100 then
    ("Limited data available (") ++ (Nat.repr csvData.length ++
      " events). Detailed analysis requires more than 100 events.")
  else
    let totalEvents := csvData.length
    let uniqueVisitors := setSize (csvData.map (·.visitorId))
    let vpnDetected := (csvData.filter (·.vpnDetected)).length
    let botDetected := (csvData.filter (·.botDetected)).length
    ("Total: ") ++ (Nat.repr totalEvents ++ " events, " ++ Nat.repr uniqueVisitors ++
      " visitors. Security: " ++ Nat.repr vpnDetected ++ " VPN, " ++
      Nat.repr botDetected ++ " bots.")

/-! ## JSON values and JSON.parse

`AIService.parseAIResponse` runs `JSON.parse` over a brace-delimited
candidate substring of the model output.  The parser below follows the
JSON grammar accepted by `JSON.parse`: strict whitespace set, strict
number grammar, escape sequences including `\uXXXX` with surrogate-pair
combination (a lone surrogate, which JavaScript would keep as an unpaired
UTF-16 unit, is modelled by U+FFFD since Lean characters are scalar
values).  Numbers are kept symbolically; only their zero-ness feeds the
truthiness checks the source performs. -/

structure JNum where
  neg : Bool
  ip : Nat
  frac : List Nat
  expNeg : Bool
  ex : Nat

inductive JVal where
  | jnull
  | jbool (b : Bool)
  | jnum (n : JNum)
  | jstr (s : String)
  | jarr (elems : List JVal)
  | jobj (fields : List (String × JVal))

/-- Is the mathematical value of a JSON number zero? -/
def JNum.isZero (n : JNum) : Bool :=
  n.ip == 0 && n.frac.all (fun d => d == 0)

/-- JavaScript property read `v[key]` on a parsed JSON value: `none` is
`undefined`; duplicate keys follow last-assignment-wins. -/
def getField : JVal → String → Option JVal
  | .jobj fields, k => ((fields.filter (fun p => p.1 == k)).getLast?).map (·.2)
  | _, _ => none

/-- JavaScript truthiness of a possibly-undefined parsed JSON value. -/
def truthy : Option JVal → Bool
  | none => false
  | some .jnull => false
  | some (.jbool b) => b
  | some (.jnum n) => !n.isZero
  | some (.jstr s) => s != ""
  | some (.jarr _) => true
  | some (.jobj _) => true

/-- The JSON whitespace characters. -/
def jsonWsChar (c : Char) : Bool :=
  c == ' ' || c == '\t' || c == '\n' || c == '\r'

def skipJsonWs (s : List Char) : List Char :=
  s.dropWhile jsonWsChar

/-- Strip an expected literal from the front of the input. -/
def dropLit : List Char → List Char → Option (List Char)
  | [], s => some s
  | _ :: _, [] => none
  | a :: as, b :: bs => if a == b then dropLit as bs else none

def hexDigitVal (c : Char) : Option Nat :=
  if '0' ≤ c && c ≤ '9' then some (c.toNat - 48)
  else if 'a' ≤ c && c ≤ 'f' then some (c.toNat - 97 + 10)
  else if 'A' ≤ c && c ≤ 'F' then some (c.toNat - 65 + 10)
  else none

def parseHex4 : List Char → Option (Nat × List Char)
  | a :: b :: c :: d :: rest => do
    let va ← hexDigitVal a
    let vb ← hexDigitVal b
    let vc ← hexDigitVal c
    let vd ← hexDigitVal d
    some (va * 4096 + vb * 256 + vc * 16 + vd, rest)
  | _ => none

/-- A Unicode scalar for a code point; lone surrogates become U+FFFD. -/
def scalarOf (n : Nat) : Char :=
  if n < 0xD800 || (0xE000 ≤ n && n < 0x110000) then Char.ofNat n else '�'

/-- Parse the body of a JSON string after its opening quote; returns the
decoded characters and the input past the closing quote. -/
def parseStrBody : Nat → List Char → Option (List Char × List Char)
  | 0, _ => none
  | _, [] => none
  | fuel + 1, c :: rest =>
    if c == '"' then some ([], rest)
    else if c == '\\' then
      match rest with
      | [] => none
      | e :: rest2 =>
        let simpleEsc : Option Char :=
          if e == '"' then some '"'
          else if e == '\\' then some '\\'
          else if e == '/' then some '/'
          else if e == 'b' then some '\x08'
          else if e == 'f' then some '\x0C'
          else if e == 'n' then some '\n'
          else if e == 'r' then some '\r'
          else if e == 't' then some '\t'
          else none
        match simpleEsc with
        | some ch =>
          (parseStrBody fuel rest2).map (fun p => (ch :: p.1, p.2))
        | none =>
          if e == 'u' then
            match parseHex4 rest2 with
            | none => none
            | some (n, rest3) =>
              if 0xD800 ≤ n && n ≤ 0xDBFF then
                match rest3 with
                | '\\' :: 'u' :: rest4 =>
                  match parseHex4 rest4 with
                  | some (m, rest5) =>
                    if 0xDC00 ≤ m && m ≤ 0xDFFF then
                      (parseStrBody fuel rest5).map (fun p =>
                        (scalarOf (0x10000 + (n - 0xD800) * 1024 + (m - 0xDC00)) :: p.1, p.2))
                    else
                      (parseStrBody fuel rest3).map (fun p => ('�' :: p.1, p.2))
                  | none =>
                    (parseStrBody fuel rest3).map (fun p => ('�' :: p.1, p.2))
                | _ =>
                  (parseStrBody fuel rest3).map (fun p => ('�' :: p.1, p.2))
              else
                (parseStrBody fuel rest3).map (fun p => (scalarOf n :: p.1, p.2))
          else none
    else if c.toNat < 0x20 then none
    else (parseStrBody fuel rest).map (fun p => (c :: p.1, p.2))

def isDigitCh (c : Char) : Bool :=
  '0' ≤ c && c ≤ '9'

/-- Longest digit run at the front, as digit values. -/
def spanDigits (s : List Char) : List Nat × List Char :=
  let ds := s.takeWhile isDigitCh
  (ds.map (fun c => c.toNat - 48), s.drop ds.length)

def digitsToNat (ds : List Nat) : Nat :=
  ds.foldl (fun a d => a * 10 + d) 0

/-- Parse the fraction and exponent suffix of a JSON number. -/
def parseNumTail (neg : Bool) (ip : Nat) (s : List Char) : Option (JNum × List Char) :=
  let (frac, s1) :=
    match s with
    | '.' :: t =>
      let (fds, rest) := spanDigits t
      (some fds, rest)
    | _ => (none, s)
  match frac with
  | some [] => none
  | _ =>
    let fds := frac.getD []
    match s1 with
    | 'e' :: t | 'E' :: t =>
      let (expNeg, t2) :=
        match t with
        | '-' :: u => (true, u)
        | '+' :: u => (false, u)
        | _ => (false, t)
      let (eds, rest) := spanDigits t2
      if eds.isEmpty then none
      else some (⟨neg, ip, fds, expNeg, digitsToNat eds⟩, rest)
    | _ => some (⟨neg, ip, fds, false, 0⟩, s1)

/-- Parse a JSON number (strict grammar of `JSON.parse`). -/
def parseJNum (s : List Char) : Option (JNum × List Char) :=
  let (neg, s1) :=
    match s with
    | '-' :: t => (true, t)
    | _ => (false, s)
  match s1 with
  | '0' :: t => parseNumTail neg 0 t
  | c :: _ =>
    if '1' ≤ c && c ≤ '9' then
      let (ds, s2) := spanDigits s1
      parseNumTail neg (digitsToNat ds) s2
    else none
  | [] => none

mutual

/-- Parse one JSON value; fuel bounds the nesting recursion. -/
def parseJVal : Nat → List Char → Option (JVal × List Char)
  | 0, _ => none
  | fuel + 1, s =>
    match skipJsonWs s with
    | [] => none
    | c :: rest =>
      if c == '{' then
        match skipJsonWs rest with
        | '}' :: r2 => some (.jobj [], r2)
        | r2 => (parseJMembers fuel r2).map (fun p => (.jobj p.1, p.2))
      else if c == '[' then
        match skipJsonWs rest with
        | ']' :: r2 => some (.jarr [], r2)
        | r2 => (parseJElems fuel r2).map (fun p => (.jarr p.1, p.2))
      else if c == '"' then
        (parseStrBody (rest.length + 1) rest).map (fun p => (.jstr ⟨p.1⟩, p.2))
      else if c == 't' then
        (dropLit ("rue").data rest).map (fun r => (.jbool true, r))
      else if c == 'f' then
        (dropLit ("alse").data rest).map (fun r => (.jbool false, r))
      else if c == 'n' then
        (dropLit ("ull").data rest).map (fun r => (.jnull, r))
      else
        (parseJNum (c :: rest)).map (fun p => (.jnum p.1, p.2))

/-- Parse the members of a JSON object after the opening brace. -/
def parseJMembers : Nat → List Char → Option (List (String × JVal) × List Char)
  | 0, _ => none
  | fuel + 1, s =>
    match skipJsonWs s with
    | '"' :: rest =>
      match parseStrBody (rest.length + 1) rest with
      | none => none
      | some (kcs, r1) =>
        match skipJsonWs r1 with
        | ':' :: r2 =>
          match parseJVal fuel r2 with
          | none => none
          | some (v, r3) =>
            match skipJsonWs r3 with
            | ',' :: r4 =>
              (parseJMembers fuel r4).map (fun p => ((⟨kcs⟩, v) :: p.1, p.2))
            | '}' :: r4 => some ([(⟨kcs⟩, v)], r4)
            | _ => none
        | _ => none
    | _ => none

/-- Parse the elements of a JSON array after the opening bracket. -/
def parseJElems : Nat → List Char → Option (List JVal × List Char)
  | 0, _ => none
  | fuel + 1, s =>
    match parseJVal fuel s with
    | none => none
    | some (v, r1) =>
      match skipJsonWs r1 with
      | ',' :: r2 => (parseJElems fuel r2).map (fun p => (v :: p.1, p.2))
      | ']' :: r2 => some ([v], r2)
      | _ => none

end

/-- `JSON.parse`: a full-input parse of one JSON value. -/
def jsonParse (s : String) : Option JVal :=
  match parseJVal (s.length + 1) s.data with
  | some (v, rest) => if (skipJsonWs rest).isEmpty then some v else none
  | none => none

/-- The candidate substring found by `response.match(/\x7b[\s\S]*\x7d/)`:
from the first opening brace to the last closing brace after it. -/
def extractJsonCandidate (s : String) : Option String :=
  let d := s.data
  let pre := d.takeWhile (fun c => c != '{')
  if pre.length == d.length then none
  else
    let rest := (d.drop pre.length).drop 1
    let sufLen := (rest.reverse.takeWhile (fun c => c != '}')).length
    if sufLen == rest.length then none
    else some ⟨'{' :: rest.take (rest.length - sufLen)⟩

/-- The successfully parsed chart envelope, when the located JSON candidate
parses and has truthy `analysis` and `chart` members: the pair of those two
member values. -/
def chartEnvelope (response : String) : Option (JVal × JVal) :=
  match extractJsonCandidate response with
  | none => none
  | some jsonStr =>
    match jsonParse jsonStr with
    | none => none
    | some parsed =>
      if truthy (getField parsed ("analysis")) && truthy (getField parsed ("chart")) then
        some ((getField parsed ("analysis")).getD .jnull,
              (getField parsed ("chart")).getD .jnull)
      else none

/-! ## Analysis results -/

/-- A JavaScript value stored in the `answer` field: the typed paths store
strings; the parse path forwards `parsed.analysis` unchecked, so a
non-string JSON value can flow through. -/
inductive AnswerVal where
  | text (s : String)
  | nonString (j : JVal)

/-- The `chart` field: a chart object built by the fallback builder, or the
raw `parsed.chart` JSON value forwarded unvalidated by `parseAIResponse`. -/
inductive ChartRepr where
  | built (c : ChartData)
  | raw (j : JVal)

def answerOfJVal : JVal → AnswerVal
  | .jstr s => .text s
  | v => .nonString v

structure ParsedResponse where
  analysis : AnswerVal
  chart : Option ChartRepr

/-- `AIService.parseAIResponse`. -/
def parseAIResponse (response : String) (requiresChart : Bool) : ParsedResponse :=
  if !requiresChart then
    ⟨.text response, none⟩
  else
    match chartEnvelope response with
    | some (analysisVal, chartVal) =>
      ⟨answerOfJVal analysisVal, some (.raw chartVal)⟩
    | none =>
      ⟨.text (if response == "" then ("Analysis completed successfully.") else jsTrim response),
       none⟩

/-- `interface AIAnalysisResult`. -/
structure AIAnalysisResult where
  success : Bool
  error : Option String
  answer : AnswerVal
  chart : Option ChartRepr
  dataSummary : Option String
  provider : String

/-! ## Conversation-context extraction

`analyzeData` first looks for an embedded previous answer:
`question.match(/Previous AI response: "([^"]+)"\. User question: (.+)/)`.
The regex is replayed literally: leftmost start position, greedy non-quote
capture, literal separator, then a non-empty capture of characters other
than the JavaScript line terminators. -/

def jsLineTerm (c : Char) : Bool :=
  c == '\n' || c == '\r' || c == '\u2028' || c == '\u2029'

/-- Try the context regex at one start position; returns
(previousContext, originalQuestion). -/
def ctxTryAt (s : List Char) : Option (String × String) :=
  match dropLit ("Previous AI response: \"").data s with
  | none => none
  | some s1 =>
    let cap := s1.takeWhile (fun c => c != '"')
    if cap.isEmpty then none
    else
      match dropLit ("\". User question: ").data (s1.drop cap.length) with
      | none => none
      | some s2 =>
        let cap2 := s2.takeWhile (fun c => !jsLineTerm c)
        if cap2.isEmpty then none else some (⟨cap⟩, ⟨cap2⟩)

/-- Leftmost match of the context regex. -/
def ctxFind : List Char → Option (String × String)
  | [] => ctxTryAt []
  | c :: rest =>
    match ctxTryAt (c :: rest) with
    | some r => some r
    | none => ctxFind rest

/-- The (originalQuestion, previousContext) pair `analyzeData` computes. -/
def extractQuestionContext (question : String) : String × String :=
  if incl question ("Previous AI response:") then
    match ctxFind question.data with
    | some (ctx, oq) => (oq, ctx)
    | none => (question, "")
  else (question, "")

/-! ## AIService.analyzeData -/

/-- `AIService.analyzeData`.  `aiProvider` / `isAIAvailable` are the
configuration fields; `providerResponse` is the outcome of the awaited
backend call (`analyzeWithOllama` / `analyzeWithOpenAI`) that the method
would make, a thrown error being `.error`. -/
def analyzeData (aiProvider : String) (isAIAvailable : Bool)
    (providerResponse : Except String String)
    (csvData : List FingerprintEvent) (question : String) : AIAnalysisResult :=
  let originalQuestion := (extractQuestionContext question).1
  if !isAIAvailable then
    { success := false
      error := some ("AI service not available")
      answer := .text (generateFallbackAnswer csvData originalQuestion)
      chart := (generateFallbackChart csvData originalQuestion).map .built
      dataSummary := none
      provider := "fallback" }
  else
    let isFastMode := isFastModeQuestion originalQuestion
    let dataSummary :=
      if isFastMode then prepareFastDataSummary csvData else prepareDataSummary csvData
    let requiresChart := questionRequiresChart originalQuestion
    let callResult : Except String String :=
      if aiProvider == "ollama" then providerResponse
      else if aiProvider == "openai" then providerResponse
      else .error ("No AI provider configured")
    match callResult with
    | .ok response =>
      let parsedResponse := parseAIResponse response requiresChart
      { success := true
        error := none
        answer := parsedResponse.analysis
        chart := parsedResponse.chart
        dataSummary := some dataSummary
        provider := aiProvider }
    | .error msg =>
      let fallbackAnswer := generateFallbackAnswer csvData originalQuestion
      { success := false
        error := some msg
        answer := .text (if fallbackAnswer == "" then ("Analysis completed with fallback data.") else fallbackAnswer)
        chart := (generateFallbackChart csvData originalQuestion).map .built
        dataSummary := none
        provider := "fallback" }

/-! ## Follow-up question generation -/

/-- `AIService.generateFallbackFollowUpQuestions` (the `csvData` parameter
is unused in the source as well). -/
def generateFallbackFollowUpQuestions (aiResponse : String)
    (csvData : List FingerprintEvent) (isDeeper : Bool) : List String :=
  let lowerResponse := jsToLower aiResponse
  let questions :=
    if isDeeper then
      if incl lowerResponse ("security") || incl lowerResponse ("vpn") ||
          incl lowerResponse ("bot") || incl lowerResponse ("threat") then
        ["What specific security measures should I implement?",
         "How do these threats compare to industry averages?"]
      else if incl lowerResponse ("geographic") || incl lowerResponse ("country") ||
          incl lowerResponse ("location") then
        ["Which regions show unusual activity patterns?",
         "How does geographic distribution affect security?"]
      else if incl lowerResponse ("visitor") || incl lowerResponse ("activity") ||
          incl lowerResponse ("behavior") then
        ["Which visitors show suspicious behavior patterns?",
         "How do visitor patterns change over time?"]
      else if incl lowerResponse ("browser") || incl lowerResponse ("device") ||
          incl lowerResponse ("technology") then
        ["Which browsers are most commonly used by bots?",
         "How do device types correlate with security threats?"]
      else
        ["What are the most significant data patterns?",
         "How do these insights compare to benchmarks?"]
    else
      if incl lowerResponse ("security") || incl lowerResponse ("vpn") ||
          incl lowerResponse ("bot") || incl lowerResponse ("threat") then
        ["Show me security threats", "Analyze VPN patterns"]
      else if incl lowerResponse ("geographic") || incl lowerResponse ("country") ||
          incl lowerResponse ("location") then
        ["Show geographic distribution", "Analyze location patterns"]
      else if incl lowerResponse ("visitor") || incl lowerResponse ("activity") ||
          incl lowerResponse ("behavior") then
        ["Show visitor patterns", "Analyze user behavior"]
      else if incl lowerResponse ("browser") || incl lowerResponse ("device") ||
          incl lowerResponse ("technology") then
        ["Show browser usage", "Analyze device patterns"]
      else
        ["Show data patterns", "Analyze insights"]
  questions.take 2

/-- The line-parsing step of `generateFollowUpQuestions`: split on
newlines, trim, keep non-empty lines that do not begin with a "1." or "2."
numbering prefix (such lines are dropped whole, not stripped), take two. -/
def parseFollowUps (response : String) : List String :=
  (((splitNl response).map jsTrim).filter
    (fun q => q.length != 0 && !jsStarts q ("1.") && !jsStarts q ("2."))).take 2

/-- `AIService.generateFollowUpQuestions` (the conversation-history and
chat-cache parameters of the source are unused there and omitted). -/
def generateFollowUpQuestions (aiProvider : String) (isAIAvailable : Bool)
    (providerResponse : Except String String)
    (aiResponse : String) (csvData : List FingerprintEvent) (isDeeper : Bool) :
    List String :=
  if !isAIAvailable then
    generateFallbackFollowUpQuestions aiResponse csvData isDeeper
  else
    let callResult : Except String String :=
      if aiProvider == "ollama" then providerResponse
      else if aiProvider == "openai" then providerResponse
      else .error ("No AI provider configured")
    match callResult with
    | .error _ => generateFallbackFollowUpQuestions aiResponse csvData isDeeper
    | .ok response =>
      let questions := parseFollowUps response
      if 2 ≤ questions.length then questions
      else generateFallbackFollowUpQuestions aiResponse csvData isDeeper

/-! ## Concrete fixture events used by witnesses and counterexamples -/

/-- A clean event from the US on Chrome. -/
def evUS : FingerprintEvent :=
  ⟨"visitor-a", "203.0.113.7", "req-1", 0, "Chrome", "macOS", "US", "SF",
   1, false, false, "", "", "ua", 0⟩

/-- The same event with a VPN detection. -/
def evVpn : FingerprintEvent :=
  { evUS with vpnDetected := true }

/-- An event flagged as both VPN and bot. -/
def evBoth : FingerprintEvent :=
  { evUS with vpnDetected := true, botDetected := true }

/-- An event with no known country and no known browser. -/
def evBlank : FingerprintEvent :=
  { evUS with country := "", browser := "" }

/-- 150 events, 40 of them VPN-flagged, none bot-flagged. -/
def d150 : List FingerprintEvent :=
  List.replicate 40 evVpn ++ List.replicate 110 evUS

/-- A provider response whose JSON envelope carries an 11-point chart. -/
def c4Resp : String :=
  "\x7b\"analysis\": \"ok\", \"chart\": \x7b\"type\": \"bar\", \"title\": \"t\", \"data\": [" ++
  joinSep (", ") ((List.range 11).map
    (fun i => "\x7b\"name\": \"p" ++ Nat.repr i ++ "\", \"value\": 1\x7d")) ++
  "]\x7d\x7d"

/-- Point count of a forwarded raw chart value as the renderer reads it:
the length of its `data` array member (0 when there is none). -/
def rawChartPointCount (j : JVal) : Nat :=
  match getField j ("data") with
  | some (JVal.jarr elems) => elems.length
  | _ => 0

/-- Point count of either chart representation the analysis result can
carry. -/
def chartPointCount : ChartRepr → Nat
  | ChartRepr.built c => c.data.length
  | ChartRepr.raw j => rawChartPointCount j

/-! ## Helper lemmas -/

theorem str_append_ne {s : String} (t : String) (h : s ≠ "") : s ++ t ≠ "" := by
  intro hc
  apply h
  have hd : s.data ++ t.data = [] := by
    have : (s ++ t).data = "".data := congrArg String.data hc
    cases s with
    | mk a => cases t with
      | mk b => exact this
  cases s with
  | mk a => cases (List.append_eq_nil.mp hd).1; rfl

theorem visitorAnswer_ne (d : List FingerprintEvent) : visitorAnswer d ≠ "" := by
  simp only [visitorAnswer]
  exact str_append_ne _ (by decide)

theorem securityAnswer_ne (d : List FingerprintEvent) : securityAnswer d ≠ "" := by
  simp only [securityAnswer]
  exact str_append_ne _ (by decide)

theorem geoAnswer_ne (d : List FingerprintEvent) : geoAnswer d ≠ "" := by
  simp only [geoAnswer]
  exact str_append_ne _ (by decide)

theorem browserAnswer_ne (d : List FingerprintEvent) : browserAnswer d ≠ "" := by
  simp only [browserAnswer]
  exact str_append_ne _ (by decide)

theorem genericAnswer_ne (d : List FingerprintEvent) : genericAnswer d ≠ "" := by
  simp only [genericAnswer]
  exact str_append_ne _ (by decide)

/-- Every branch of the rule-based fallback answer is a non-empty string. -/
theorem generateFallbackAnswer_ne (d : List FingerprintEvent) (q : String) :
    generateFallbackAnswer d q ≠ "" := by
  simp only [generateFallbackAnswer]
  repeat' split
  · exact visitorAnswer_ne d
  · exact securityAnswer_ne d
  · exact geoAnswer_ne d
  · exact browserAnswer_ne d
  · exact genericAnswer_ne d

theorem mem_dedupAux {x : String} :
    ∀ (l seen : List String), x ∈ dedupAux seen l → x ∈ l := by
  intro l
  induction l with
  | nil => intro seen h; cases h
  | cons k ks ih =>
    intro seen h
    unfold dedupAux at h
    split at h
    · exact List.mem_cons_of_mem _ (ih _ h)
    · rcases List.mem_cons.mp h with h | h
      · exact h ▸ List.mem_cons_self _ _
      · exact List.mem_cons_of_mem _ (ih _ h)

theorem mem_dedup {x : String} {l : List String} (h : x ∈ dedup l) : x ∈ l :=
  mem_dedupAux l [] h

theorem dedup_ne_nil {l : List String} (h : l ≠ []) : dedup l ≠ [] := by
  cases l with
  | nil => exact absurd rfl h
  | cons a t => simp [dedup, dedupAux]

theorem mem_tally {p : String × Nat} {keys : List String} (h : p ∈ tally keys) :
    p.1 ∈ keys := by
  rcases List.mem_map.mp h with ⟨k, hk, hp⟩
  exact hp ▸ mem_dedup hk

theorem tally_ne_nil {keys : List String} (h : keys ≠ []) : tally keys ≠ [] := by
  simp only [tally, ne_eq, List.map_eq_nil_iff]
  exact dedup_ne_nil h

theorem mem_insertDesc {x y : String × Nat} :
    ∀ {l : List (String × Nat)}, x ∈ insertDesc y l → x = y ∨ x ∈ l := by
  intro l
  induction l with
  | nil => intro h; rcases List.mem_cons.mp h with h | h
           · exact Or.inl h
           · cases h
  | cons z zs ih =>
    intro h
    unfold insertDesc at h
    split at h
    · rcases List.mem_cons.mp h with h | h
      · exact Or.inl h
      · exact Or.inr h
    · rcases List.mem_cons.mp h with h | h
      · exact Or.inr (h ▸ List.mem_cons_self _ _)
      · rcases ih h with h | h
        · exact Or.inl h
        · exact Or.inr (List.mem_cons_of_mem _ h)

theorem length_insertDesc (x : String × Nat) :
    ∀ (l : List (String × Nat)), (insertDesc x l).length = l.length + 1 := by
  intro l
  induction l with
  | nil => rfl
  | cons z zs ih =>
    unfold insertDesc
    split
    · simp
    · simp [ih]

theorem mem_sortDescAux {x : String × Nat} :
    ∀ (l acc : List (String × Nat)),
      x ∈ l.foldl (fun a b => insertDesc b a) acc → x ∈ acc ∨ x ∈ l := by
  intro l
  induction l with
  | nil => intro acc h; exact Or.inl h
  | cons z zs ih =>
    intro acc h
    rcases ih (insertDesc z acc) h with h | h
    · rcases mem_insertDesc h with h | h
      · exact Or.inr (h ▸ List.mem_cons_self _ _)
      · exact Or.inl h
    · exact Or.inr (List.mem_cons_of_mem _ h)

theorem mem_sortDesc {x : String × Nat} {l : List (String × Nat)}
    (h : x ∈ sortDesc l) : x ∈ l := by
  rcases mem_sortDescAux l [] h with h | h
  · cases h
  · exact h

theorem length_sortDescAux :
    ∀ (l acc : List (String × Nat)),
      (l.foldl (fun a b => insertDesc b a) acc).length = acc.length + l.length := by
  intro l
  induction l with
  | nil => intro acc; rfl
  | cons z zs ih =>
    intro acc
    simp only [List.foldl_cons, ih (insertDesc z acc), length_insertDesc, List.length_cons]
    omega

theorem length_sortDesc (l : List (String × Nat)) :
    (sortDesc l).length = l.length := by
  simpa using length_sortDescAux l []

theorem sortDesc_ne_nil {l : List (String × Nat)} (h : l ≠ []) : sortDesc l ≠ [] := by
  intro hc
  apply h
  have := length_sortDesc l
  rw [hc] at this
  exact List.length_eq_zero.mp this.symm

theorem take_ne_nil {α : Type} {l : List α} {n : Nat} (hn : n ≠ 0) (h : l ≠ []) :
    l.take n ≠ [] := by
  cases l with
  | nil => exact absurd rfl h
  | cons a t =>
    cases n with
    | zero => exact absurd rfl hn
    | succ m => simp

theorem length_filter_not_add (p : FingerprintEvent → Bool) (l : List FingerprintEvent) :
    (l.filter p).length + (l.filter (fun a => !p a)).length = l.length := by
  induction l with
  | nil => rfl
  | cons a t ih =>
    by_cases h : p a = true
    · simp [List.filter_cons, h, ih]
      omega
    · have h' : p a = false := by simpa using h
      simp [List.filter_cons, h']
      omega

/-- Every keyword-matched canned follow-up pair is two non-empty strings. -/
theorem fallback_followups_spec (a : String) (d : List FingerprintEvent) (deep : Bool) :
    (generateFallbackFollowUpQuestions a d deep).length = 2 ∧
    (generateFallbackFollowUpQuestions a d deep).all (fun q => q.length != 0) = true := by
  simp only [generateFallbackFollowUpQuestions]
  repeat' split
  all_goals decide

/-- Lines surviving the follow-up parsing filter are non-empty. -/
theorem parseFollowUps_all (r : String) :
    (parseFollowUps r).all (fun q => q.length != 0) = true := by
  rw [List.all_eq_true]
  intro q hq
  have hq' := (List.take_subset _ _) hq
  have hp := (List.mem_filter.mp hq').2
  simp only [Bool.and_eq_true] at hp
  exact hp.1.1

/-- Evaluation of `toFixed1` through a computed floor value. -/
theorem toFixed1_eval (q : ℚ) (z : ℕ) (s : String)
    (hz : ⌊q * 10 + 1 / 2⌋ = (z : ℤ))
    (hs : Nat.repr (z / 10) ++ "." ++ Nat.repr (z % 10) = s) :
    toFixed1 q = s := by
  simp only [toFixed1, hz, Int.toNat_natCast]
  exact hs

/-- The follow-up line parser keeps at most two questions. -/
theorem parseFollowUps_le (r : String) : (parseFollowUps r).length ≤ 2 :=
  List.length_take_le _ _

/-- Evaluation of the security fallback answer from its three aggregates. -/
theorem securityAnswer_eval (d : List FingerprintEvent) (v b n : Nat) (s : String)
    (hv : (d.filter (fun x => x.vpnDetected)).length = v)
    (hb : (d.filter (fun x => x.botDetected)).length = b)
    (hn : d.length = n)
    (h0 : (n == 0) = false)
    (hfix : toFixed1 ((((v : ℚ) + (b : ℚ)) / (n : ℚ)) * 100) = s) :
    securityAnswer d = "Security analysis shows " ++ (Nat.repr v ++
      " VPN connections and " ++ Nat.repr b ++ " bot detections out of " ++
      Nat.repr n ++ " total events. This represents " ++ s ++
      "% potential security threats.") := by
  simp only [securityAnswer, hv, hb, hn, h0, Bool.false_eq_true, if_false, hfix]

/-- Branch selection: a non-visitor question with a security keyword gets
the security fallback answer. -/
theorem generateFallbackAnswer_security (d : List FingerprintEvent) (q : String)
    (hv : (incl (jsToLower q) ("visitor") || incl (jsToLower q) ("activity")) = false)
    (hs : (incl (jsToLower q) ("security") || incl (jsToLower q) ("vpn") ||
      incl (jsToLower q) ("bot")) = true) :
    generateFallbackAnswer d q = securityAnswer d := by
  simp [generateFallbackAnswer, hv, hs]

/-! ## Claim theorems -/

/-- C1, counterexample: the claim also asserts that `answerText` is a
non-empty string when `success = true`, but a configured provider that
returns the empty string for a non-chart question produces a successful
result whose answer is the empty string. -/
theorem C1_counterexample :
    (analyzeData ("openai") true (Except.ok ("")) [] ("hello")).success = true ∧
    (analyzeData ("openai") true (Except.ok ("")) [] ("hello")).answer = AnswerVal.text ("") :=
  ⟨rfl, rfl⟩

/-- C1, amended: every failure mode of `analyzeData` — provider not
available, provider not configured to a known backend, or a thrown
provider/network/timeout error — resolves to a returned result with
`success = false`, `provider = "fallback"`, and the computed rule-based
answer, which is always a non-empty string; on the success path the answer
can be empty when the backend returns an empty string. -/
theorem C1_failure_modes (provider : String) (avail : Bool)
    (resp : Except String String) (d : List FingerprintEvent) (q : String)
    (h : avail = false ∨ (provider ≠ "ollama" ∧ provider ≠ "openai") ∨
      ∃ e, resp = Except.error e) :
    (analyzeData provider avail resp d q).success = false ∧
    (analyzeData provider avail resp d q).provider = "fallback" ∧
    (analyzeData provider avail resp d q).answer =
      AnswerVal.text (generateFallbackAnswer d (extractQuestionContext q).1) ∧
    generateFallbackAnswer d (extractQuestionContext q).1 ≠ "" := by
  have hne := generateFallbackAnswer_ne d (extractQuestionContext q).1
  have hne' : (generateFallbackAnswer d (extractQuestionContext q).1 == "") = false :=
    beq_eq_false_iff_ne.mpr hne
  rcases h with h | ⟨h1, h2⟩ | ⟨e, he⟩
  · subst h
    exact ⟨rfl, rfl, rfl, hne⟩
  · cases avail with
    | false => exact ⟨rfl, rfl, rfl, hne⟩
    | true =>
      have hb1 : (provider == "ollama") = false := beq_eq_false_iff_ne.mpr h1
      have hb2 : (provider == "openai") = false := beq_eq_false_iff_ne.mpr h2
      refine ⟨?_, ?_, ?_, hne⟩ <;>
        simp [analyzeData, hb1, hb2, hne']
  · subst he
    cases avail with
    | false => exact ⟨rfl, rfl, rfl, hne⟩
    | true =>
      rcases Bool.eq_false_or_eq_true (provider == "ollama") with hb1 | hb1
      · rcases Bool.eq_false_or_eq_true (provider == "openai") with hb2 | hb2
        · refine ⟨?_, ?_, ?_, hne⟩ <;> simp [analyzeData, hb1, hb2, hne']
        · refine ⟨?_, ?_, ?_, hne⟩ <;> simp [analyzeData, hb1, hb2, hne']
      · rcases Bool.eq_false_or_eq_true (provider == "openai") with hb2 | hb2 <;>
          (refine ⟨?_, ?_, ?_, hne⟩ <;> simp [analyzeData, hb1, hb2, hne'])

/-- Witness for C1: the unconfigured-provider failure mode at a concrete
input. -/
theorem C1_failure_modes_witness :
    (analyzeData ("fallback") false (Except.error "boom") [] ("hi")).success = false ∧
    (analyzeData ("fallback") false (Except.error "boom") [] ("hi")).provider = "fallback" ∧
    (analyzeData ("fallback") false (Except.error "boom") [] ("hi")).answer =
      AnswerVal.text (generateFallbackAnswer [] (extractQuestionContext "hi").1) ∧
    generateFallbackAnswer [] (extractQuestionContext "hi").1 ≠ "" :=
  C1_failure_modes ("fallback") false (Except.error "boom") [] ("hi") (Or.inl rfl)

set_option maxRecDepth 8000 in
/-- C4, counterexample: the claim fails twice. On an empty collection a
question matching the visitor branch yields a chart object with an empty
point list, so zero points does not imply the chart field is absent; and
analyzeData forwards a provider-parsed chart without any point-count
validation, so a provider response carrying an 11-point chart is returned
with 11 points, above the claimed cap of 10. -/
theorem C4_counterexample :
    generateFallbackChart [] ("visitor") =
      some ⟨"bar", [], "Top 10 Visitors by Request Count"⟩ ∧
    (⟨"bar", [], "Top 10 Visitors by Request Count"⟩ : ChartData).data.length = 0 ∧
    (analyzeData ("openai") true (Except.ok c4Resp) [] ("show me a chart")).chart.map
      chartPointCount = some 11 ∧
    (analyzeData ("openai") true (Except.ok c4Resp) [] ("show me a chart")).success = true ∧
    ¬ (11 : Nat) ≤ 10 :=
  ⟨rfl, rfl, by decide, rfl, by decide⟩

/-- Point-cap and non-emptiness facts for every chart the fallback chart
builder returns. -/
theorem fallbackChart_caps (d : List FingerprintEvent) (q : String) (c : ChartData)
    (h : generateFallbackChart d q = some c) :
    c.data.length ≤ 10 ∧ (c.ctype = "pie" → c.data.length ≤ 8) ∧
    (d ≠ [] → c.data ≠ []) := by
  simp only [generateFallbackChart] at h
  have hvis : ∀ n : Nat, n ≠ 0 →
      (((sortDesc (tally (d.map (·.visitorId)))).take n).map
        (fun p => (strTake 8 p.1 ++ "...", p.2))).length ≤ n ∧
      (d ≠ [] →
        ((sortDesc (tally (d.map (·.visitorId)))).take n).map
          (fun p => (strTake 8 p.1 ++ "...", p.2)) ≠ []) := by
    intro n hn
    constructor
    · simpa using List.length_take_le n _
    · intro hd
      simp only [ne_eq, List.map_eq_nil_iff]
      apply take_ne_nil hn
      apply sortDesc_ne_nil
      apply tally_ne_nil
      simpa using hd
  split at h
  · -- visitor branch
    cases h
    simp only [visitorChart]
    rcases hvis 10 (by decide) with ⟨h1, h2⟩
    exact ⟨h1, fun hp => by simp at hp, h2⟩
  split at h
  · -- geographic branch
    cases h
    simp only [geoChart]
    refine ⟨?_, fun hp => by simp at hp, fun _ => ?_⟩
    · split
      · simpa using le_trans (List.length_take_le 8 _) (by norm_num)
      · decide
    · split
      · rename_i hlen
        simp only [bne_iff_ne, ne_eq] at hlen
        exact fun hc => hlen (by rw [hc]; rfl)
      · decide
  split at h
  · -- security branch
    cases h
    simp only [securityChart]
    refine ⟨le_trans (List.length_filter_le _ _) (by simp),
            fun _ => le_trans (List.length_filter_le _ _) (by simp),
            fun hd hc => hd ?_⟩
    rw [List.filter_eq_nil_iff] at hc
    have hvpn : (d.filter (·.vpnDetected)).length = 0 := by
      have := hc _ (List.mem_cons_self _ _)
      simpa using this
    have hbot : (d.filter (·.botDetected)).length = 0 := by
      have := hc _ (List.mem_cons_of_mem _ (List.mem_cons_self _ _))
      simpa using this
    have hclean : (d.filter (fun e => !e.vpnDetected && !e.botDetected)).length = 0 := by
      have := hc _ (List.mem_cons_of_mem _ (List.mem_cons_of_mem _ (List.mem_cons_self _ _)))
      simpa using this
    have hall : ∀ e ∈ d, e.vpnDetected = false ∧ e.botDetected = false := by
      intro e he
      have h1 := List.filter_eq_nil_iff.mp (List.length_eq_zero.mp hvpn) e he
      have h2 := List.filter_eq_nil_iff.mp (List.length_eq_zero.mp hbot) e he
      constructor
      · simpa using h1
      · simpa using h2
    have : d.filter (fun e => !e.vpnDetected && !e.botDetected) = d := by
      apply List.filter_eq_self.mpr
      intro e he
      rcases hall e he with ⟨h1, h2⟩
      simp [h1, h2]
    rw [this] at hclean
    exact List.length_eq_zero.mp hclean
  split at h
  · -- browser branch
    cases h
    simp only [browserChart]
    refine ⟨?_, fun hp => by simp at hp, fun _ => ?_⟩
    · split
      · simpa using le_trans (List.length_take_le 8 _) (by norm_num)
      · decide
    · split
      · rename_i hlen
        simp only [bne_iff_ne, ne_eq] at hlen
        exact fun hc => hlen (by rw [hc]; rfl)
      · decide
  split at h
  · -- generic visualization branch
    cases h
    simp only [activityChart]
    rcases hvis 8 (by decide) with ⟨h1, h2⟩
    exact ⟨le_trans h1 (by norm_num), fun hp => by simp at hp, h2⟩
  · cases h

/-- The provider-parse path never produces a structured (fallback-built)
chart: its chart field is absent or the raw forwarded JSON value. -/
theorem parseAIResponse_chart_not_built (resp : String) (rc : Bool) (c : ChartData) :
    (parseAIResponse resp rc).chart ≠ some (ChartRepr.built c) := by
  intro hc
  unfold parseAIResponse at hc
  split at hc
  · simp at hc
  · cases he : chartEnvelope resp with
    | none =>
      rw [he] at hc
      simp at hc
    | some pr =>
      obtain ⟨av, cv⟩ := pr
      rw [he] at hc
      simp only [Option.some.injEq] at hc
      cases hc
  
/-- Every structured chart in an analyzeData result comes from the
fallback chart builder (applied to the context-extracted question). -/
theorem analyzeData_built_chart (provider : String) (avail : Bool)
    (resp : Except String String) (d : List FingerprintEvent) (q : String) (c : ChartData)
    (h : (analyzeData provider avail resp d q).chart = some (ChartRepr.built c)) :
    generateFallbackChart d (extractQuestionContext q).1 = some c := by
  have hmap : ∀ (o : Option ChartData), o.map ChartRepr.built = some (ChartRepr.built c) →
      o = some c := by
    intro o ho
    cases o with
    | none => simp at ho
    | some cx =>
      simp only [Option.map_some', Option.some.injEq, ChartRepr.built.injEq] at ho
      rw [ho]
  cases avail with
  | false => exact hmap _ h
  | true =>
    by_cases hpo : provider = "ollama"
    · subst hpo
      cases resp with
      | error e => exact hmap _ h
      | ok response =>
        have hp : (parseAIResponse response
            (questionRequiresChart (extractQuestionContext q).1)).chart =
            some (ChartRepr.built c) := h
        exact absurd hp (parseAIResponse_chart_not_built _ _ _)
    · by_cases hpa : provider = "openai"
      · subst hpa
        cases resp with
        | error e => exact hmap _ h
        | ok response =>
          have hp : (parseAIResponse response
              (questionRequiresChart (extractQuestionContext q).1)).chart =
              some (ChartRepr.built c) := h
          exact absurd hp (parseAIResponse_chart_not_built _ _ _)
      · have hb1 : (provider == "ollama") = false := beq_eq_false_iff_ne.mpr hpo
        have hb2 : (provider == "openai") = false := beq_eq_false_iff_ne.mpr hpa
        have hred : (analyzeData provider true resp d q).chart =
            (generateFallbackChart d (extractQuestionContext q).1).map ChartRepr.built := by
          cases resp <;> simp [analyzeData, hb1, hb2]
        rw [hred] at h
        exact hmap _ h

set_option maxRecDepth 8000 in
/-- C4, amended: every chart returned by the fallback chart builder — and
hence every structured chart returned by analyzeData, whose fallback paths
are the only ones building charts — has at most 10 points (at most 8 for
the pie chart), and for a non-empty collection it has at least one point;
however, zero points does not imply the chart field is absent (an empty
collection yields a chart object with an empty point list), and the
provider-parse path of analyzeData forwards the provider's chart without
any point-count validation, e.g. an 11-point chart passes through. -/
theorem C4_point_caps (provider : String) (avail : Bool)
    (resp : Except String String) (d : List FingerprintEvent) (q : String) (c : ChartData)
    (h : generateFallbackChart d q = some c ∨
      (analyzeData provider avail resp d q).chart = some (ChartRepr.built c)) :
    (c.data.length ≤ 10 ∧ (c.ctype = "pie" → c.data.length ≤ 8) ∧
      (d ≠ [] → c.data ≠ [])) ∧
    (analyzeData ("openai") true (Except.ok c4Resp) [] ("show me a chart")).chart.map
      chartPointCount = some 11 := by
  constructor
  · rcases h with h | h
    · exact fallbackChart_caps d q c h
    · exact fallbackChart_caps d _ c (analyzeData_built_chart provider avail resp d q c h)
  · decide

/-- Witness for C4: the caps at a concrete non-empty input, through both
the fallback-builder and the analyzeData forms of the hypothesis. -/
theorem C4_point_caps_witness :
    ((visitorChart [evUS]).data.length ≤ 10 ∧
     ((visitorChart [evUS]).ctype = "pie" → (visitorChart [evUS]).data.length ≤ 8) ∧
     ([evUS] ≠ [] → (visitorChart [evUS]).data ≠ [])) ∧
    (analyzeData ("openai") true (Except.ok c4Resp) [] ("show me a chart")).chart.map
      chartPointCount = some 11 :=
  C4_point_caps ("fallback") false (Except.error ("down")) [evUS] ("visitor")
    (visitorChart [evUS]) (Or.inl rfl)

/-- C6 (confirmed): the data summarizer is total: the empty collection
yields the fixed no-data sentinel, and any non-empty collection of at most
100 events yields the limited-data sentinel carrying only the event count,
in both full and fast mode. -/
theorem C6_summarizer_sentinels (l : List FingerprintEvent)
    (hne : l ≠ []) (hle : l.length ≤ 100) :
    prepareDataSummary [] = "No data available for analysis." ∧
    prepareFastDataSummary [] = "No data available." ∧
    prepareDataSummary l = "Limited data available (" ++ (Nat.repr l.length ++
      " events). Detailed analysis requires more than 100 events for meaningful insights.") ∧
    prepareFastDataSummary l = "Limited data available (" ++ (Nat.repr l.length ++
      " events). Detailed analysis requires more than 100 events.") := by
  have h0 : (l.length == 0) = false := by
    rw [beq_eq_false_iff_ne]
    exact fun hc => hne (List.length_eq_zero.mp hc)
  refine ⟨rfl, rfl, ?_, ?_⟩
  · unfold prepareDataSummary
    rw [if_neg (by simp [h0]), if_pos hle]
  · unfold prepareFastDataSummary
    rw [if_neg (by simp [h0]), if_pos hle]

/-- Witness for C6 at a five-event collection. -/
theorem C6_summarizer_sentinels_witness :
    prepareDataSummary [] = "No data available for analysis." ∧
    prepareFastDataSummary [] = "No data available." ∧
    prepareDataSummary (List.replicate 5 evUS) = "Limited data available (" ++
      (Nat.repr (List.replicate 5 evUS).length ++
      " events). Detailed analysis requires more than 100 events for meaningful insights.") ∧
    prepareFastDataSummary (List.replicate 5 evUS) = "Limited data available (" ++
      (Nat.repr (List.replicate 5 evUS).length ++
      " events). Detailed analysis requires more than 100 events.") :=
  C6_summarizer_sentinels (List.replicate 5 evUS) (by decide) (by decide)

/-- C7 (confirmed): for every answer text, event collection and depth flag,
the follow-up generator returns exactly 2 non-empty questions, whatever the
provider configuration or outcome: an unavailable or failing provider, or
one yielding fewer than 2 usable lines, falls back to the keyword-matched
canned pair, the generic pair being the default. -/
theorem C7_followups_total (provider : String) (avail : Bool)
    (resp : Except String String) (aiResponse : String)
    (d : List FingerprintEvent) (isDeeper : Bool) :
    (generateFollowUpQuestions provider avail resp aiResponse d isDeeper).length = 2 ∧
    (generateFollowUpQuestions provider avail resp aiResponse d isDeeper).all
      (fun q => q.length != 0) = true := by
  cases avail with
  | false => exact fallback_followups_spec aiResponse d isDeeper
  | true =>
    by_cases hpo : provider = "ollama"
    · subst hpo
      cases resp with
      | error e => exact fallback_followups_spec aiResponse d isDeeper
      | ok response =>
        have hr : generateFollowUpQuestions ("ollama") true (Except.ok response)
            aiResponse d isDeeper =
            if 2 ≤ (parseFollowUps response).length then parseFollowUps response
            else generateFallbackFollowUpQuestions aiResponse d isDeeper := rfl
        rw [hr]
        split
        · rename_i hlen
          exact ⟨le_antisymm (parseFollowUps_le response) hlen, parseFollowUps_all response⟩
        · exact fallback_followups_spec aiResponse d isDeeper
    · by_cases hpa : provider = "openai"
      · subst hpa
        cases resp with
        | error e => exact fallback_followups_spec aiResponse d isDeeper
        | ok response =>
          have hr : generateFollowUpQuestions ("openai") true (Except.ok response)
              aiResponse d isDeeper =
              if 2 ≤ (parseFollowUps response).length then parseFollowUps response
              else generateFallbackFollowUpQuestions aiResponse d isDeeper := rfl
          rw [hr]
          split
          · rename_i hlen
            exact ⟨le_antisymm (parseFollowUps_le response) hlen, parseFollowUps_all response⟩
          · exact fallback_followups_spec aiResponse d isDeeper
      · have hb1 : (provider == "ollama") = false := beq_eq_false_iff_ne.mpr hpo
        have hb2 : (provider == "openai") = false := beq_eq_false_iff_ne.mpr hpa
        have hr : generateFollowUpQuestions provider true resp aiResponse d isDeeper =
            generateFallbackFollowUpQuestions aiResponse d isDeeper := by
          cases resp <;> simp [generateFollowUpQuestions, hb1, hb2]
        rw [hr]
        exact fallback_followups_spec aiResponse d isDeeper

/-- C10 (confirmed): the security fallback answer reports
`(vpnCount + botCount) / totalEvents * 100` to one decimal, counting an
event with both flags twice, so a collection where every event carries both
flags reports more than 100 percent. -/
theorem C10_security_pct (d : List FingerprintEvent) (q : String)
    (hv : (incl (jsToLower q) ("visitor") || incl (jsToLower q) ("activity")) = false)
    (hs : (incl (jsToLower q) ("security") || incl (jsToLower q) ("vpn") ||
      incl (jsToLower q) ("bot")) = true)
    (hne : d ≠ []) :
    generateFallbackAnswer d q =
      "Security analysis shows " ++ (Nat.repr (d.countP (·.vpnDetected)) ++
        " VPN connections and " ++ Nat.repr (d.countP (·.botDetected)) ++
        " bot detections out of " ++ Nat.repr d.length ++
        " total events. This represents " ++
        toFixed1 ((((d.countP (·.vpnDetected) : ℚ) + (d.countP (·.botDetected) : ℚ)) /
          (d.length : ℚ)) * 100) ++
        "% potential security threats.") ∧
    incl (generateFallbackAnswer [evBoth] ("security")) ("200.0%") = true := by
  constructor
  · have h0 : (d.length == 0) = false := by
      rw [beq_eq_false_iff_ne]
      exact fun hc => hne (List.length_eq_zero.mp hc)
    rw [generateFallbackAnswer_security d q hv hs]
    exact securityAnswer_eval d _ _ _ _
      (List.countP_eq_length_filter _ _).symm
      (List.countP_eq_length_filter _ _).symm rfl h0 rfl
  · have hsel : generateFallbackAnswer [evBoth] ("security") = securityAnswer [evBoth] :=
      generateFallbackAnswer_security [evBoth] ("security") (by decide) (by decide)
    have hev : securityAnswer [evBoth] = "Security analysis shows " ++ (Nat.repr 1 ++
        " VPN connections and " ++ Nat.repr 1 ++ " bot detections out of " ++
        Nat.repr 1 ++ " total events. This represents " ++ "200.0" ++
        "% potential security threats.") :=
      securityAnswer_eval [evBoth] 1 1 1 "200.0" (by decide) (by decide) rfl (by decide)
        (toFixed1_eval _ 2000 _ (by norm_num [Int.floor_eq_iff]) (by decide))
    rw [hsel, hev]
    decide

/-- Splitting a collection by the VPN flag preserves its length. -/
theorem length_filter_vpn_split (l : List FingerprintEvent) :
    (l.filter (fun x => x.vpnDetected)).length +
      (l.filter (fun e => !e.vpnDetected)).length = l.length := by
  induction l with
  | nil => rfl
  | cons a t ih =>
    by_cases h : a.vpnDetected = true
    · simp [List.filter_cons, h]
      omega
    · have h' : a.vpnDetected = false := by simpa using h
      simp [List.filter_cons, h']
      omega

/-- Geographic fallback chart points never carry the Unknown label. -/
theorem geoChart_no_unknown (d : List FingerprintEvent) :
    (geoChart d).data.all (fun p => p.1 != "Unknown") = true := by
  simp only [geoChart]
  split
  · rw [List.all_eq_true]
    intro p hp
    have h2 := mem_sortDesc ((List.take_subset _ _) hp)
    have h3 := (List.mem_filter.mp h2).2
    simp only [Bool.and_eq_true] at h3
    exact h3.1.2
  · decide

/-- Browser fallback chart points never carry the Unknown label. -/
theorem browserChart_no_unknown (d : List FingerprintEvent) :
    (browserChart d).data.all (fun p => p.1 != "Unknown") = true := by
  simp only [browserChart]
  split
  · rw [List.all_eq_true]
    intro p hp
    have h2 := mem_sortDesc ((List.take_subset _ _) hp)
    have h3 := (List.mem_filter.mp h2).2
    simp only [Bool.and_eq_true] at h3
    exact h3.1.2
  · decide

/-- With no known country in the collection, the geographic chart is the
placeholder point. -/
theorem geoChart_placeholder (d : List FingerprintEvent)
    (hall : d.all (fun e => e.country == "" || e.country == "Unknown") = true) :
    (geoChart d).data = [("No Data", 1)] := by
  have hkeys : ∀ k ∈ d.map (fun e => if e.country == "" then "Unknown" else e.country),
      k = "Unknown" := by
    intro k hk
    rcases List.mem_map.mp hk with ⟨e, he, hke⟩
    rw [List.all_eq_true] at hall
    have hcase := hall e he
    simp only [Bool.or_eq_true, beq_iff_eq] at hcase
    rcases hcase with h | h
    · rw [← hke]
      simp [h]
    · rw [← hke, h]
      decide
  have hfil : (tally (d.map (fun e => if e.country == "" then "Unknown" else e.country))).filter
      (fun p => p.1 != "" && p.1 != "Unknown" && p.2 != 0) = [] := by
    rw [List.filter_eq_nil_iff]
    intro p hp
    have hu := hkeys p.1 (mem_tally hp)
    simp [hu]
  simp only [geoChart, hfil]
  decide

/-- With no known browser in the collection, the browser chart is the
placeholder point. -/
theorem browserChart_placeholder (d : List FingerprintEvent)
    (hall : d.all (fun e => e.browser == "" || e.browser == "Unknown") = true) :
    (browserChart d).data = [("No Data", 1)] := by
  have hkeys : ∀ k ∈ d.map (fun e => if e.browser == "" then "Unknown" else e.browser),
      k = "Unknown" := by
    intro k hk
    rcases List.mem_map.mp hk with ⟨e, he, hke⟩
    rw [List.all_eq_true] at hall
    have hcase := hall e he
    simp only [Bool.or_eq_true, beq_iff_eq] at hcase
    rcases hcase with h | h
    · rw [← hke]
      simp [h]
    · rw [← hke, h]
      decide
  have hfil : (tally (d.map (fun e => if e.browser == "" then "Unknown" else e.browser))).filter
      (fun p => p.1 != "" && p.1 != "Unknown" && p.2 != 0) = [] := by
    rw [List.filter_eq_nil_iff]
    intro p hp
    have hu := hkeys p.1 (mem_tally hp)
    simp [hu]
  simp only [browserChart, hfil]
  decide

/-- C2, counterexample: for the question "security country", carrying both
a security and a country keyword, the fallback answer picks the security
category but the fallback chart picks the geographic bar chart, not the
security pie chart the claim requires: the chart builder tests geographic
before security. -/
theorem C2_counterexample :
    (generateFallbackChart [evUS] ("security country")).map ChartData.ctype = some ("bar") ∧
    (generateFallbackChart [evUS] ("security country")).map ChartData.ctype ≠ some ("pie") ∧
    generateFallbackAnswer [evUS] ("security country") = securityAnswer [evUS] ∧
    (securityChart [evUS]).ctype = "pie" :=
  ⟨rfl, by decide, rfl, rfl⟩

/-- C2, amended: the fallback answer uses first-match priority
visitor → security → geographic → browser → generic, but the fallback
chart uses visitor → geographic → security → browser → generic: a question
with both a security and a geographic keyword (and no visitor keyword)
yields the security-category answer together with the geographic bar
chart. -/
theorem C2_priority (d : List FingerprintEvent) (q : String)
    (hv : (incl (jsToLower q) ("visitor") || incl (jsToLower q) ("activity")) = false)
    (hs : (incl (jsToLower q) ("security") || incl (jsToLower q) ("vpn") ||
      incl (jsToLower q) ("bot")) = true)
    (hg : (incl (jsToLower q) ("location") || incl (jsToLower q) ("country") ||
      incl (jsToLower q) ("geograph")) = true) :
    generateFallbackAnswer d q = securityAnswer d ∧
    generateFallbackChart d q = some (geoChart d) := by
  refine ⟨generateFallbackAnswer_security d q hv hs, ?_⟩
  simp only [Bool.or_eq_true] at hg
  rcases hg with (h | h) | h <;> simp [generateFallbackChart, hv, h]

/-- Witness for C2 at the question "security country". -/
theorem C2_priority_witness :
    generateFallbackAnswer [evUS] ("security country") = securityAnswer [evUS] ∧
    generateFallbackChart [evUS] ("security country") = some (geoChart [evUS]) :=
  C2_priority [evUS] ("security country") (by decide) (by decide) (by decide)

/-- C3 (confirmed): for any 150-event collection with exactly 40 VPN
detections and no bot detections, the question "What are the security
threats?" with the provider unconfigured yields success=false,
provider=fallback, an answer containing "40" and "26.7%", and the security
pie chart with exactly the two non-zero categories VPN=40 and Clean=110. -/
theorem C3_security_scenario (d : List FingerprintEvent) (resp : Except String String)
    (hlen : d.length = 150)
    (hvpn : (d.filter (fun x => x.vpnDetected)).length = 40)
    (hbot : (d.filter (fun x => x.botDetected)).length = 0) :
    (analyzeData ("fallback") false resp d ("What are the security threats?")).success = false ∧
    (analyzeData ("fallback") false resp d ("What are the security threats?")).provider =
      "fallback" ∧
    (analyzeData ("fallback") false resp d ("What are the security threats?")).answer =
      AnswerVal.text ("Security analysis shows 40 VPN connections and 0 bot detections out of 150 total events. This represents 26.7% potential security threats.") ∧
    incl ("Security analysis shows 40 VPN connections and 0 bot detections out of 150 total events. This represents 26.7% potential security threats.") ("40") = true ∧
    incl ("Security analysis shows 40 VPN connections and 0 bot detections out of 150 total events. This represents 26.7% potential security threats.") ("26.7%") = true ∧
    (analyzeData ("fallback") false resp d ("What are the security threats?")).chart =
      some (ChartRepr.built ⟨"pie", [("VPN Detected", 40), ("Clean Requests", 110)],
        "Security Threat Analysis"⟩) := by
  have hq : (extractQuestionContext ("What are the security threats?")).1 =
      "What are the security threats?" := by decide
  have hans : generateFallbackAnswer d ("What are the security threats?") =
      "Security analysis shows 40 VPN connections and 0 bot detections out of 150 total events. This represents 26.7% potential security threats." := by
    rw [generateFallbackAnswer_security d _ (by decide) (by decide)]
    have := securityAnswer_eval d 40 0 150 ("26.7") hvpn hbot hlen (by decide)
      (toFixed1_eval _ 267 _ (by norm_num [Int.floor_eq_iff]) (by decide))
    rw [this]
    decide
  have hb0 : ∀ e ∈ d, e.botDetected = false := by
    intro e he
    have := List.filter_eq_nil_iff.mp (List.length_eq_zero.mp hbot) e he
    simpa using this
  have hclean : (d.filter (fun e => !e.vpnDetected && !e.botDetected)).length = 110 := by
    have hcong : d.filter (fun e => !e.vpnDetected && !e.botDetected) =
        d.filter (fun e => !e.vpnDetected) := by
      apply List.filter_congr
      intro e he
      simp [hb0 e he]
    rw [hcong]
    have hsum := length_filter_vpn_split d
    omega
  have hchart : generateFallbackChart d ("What are the security threats?") =
      some (securityChart d) := by
    have hc1 : (incl (jsToLower ("What are the security threats?")) ("visitor") ||
      incl (jsToLower ("What are the security threats?")) ("activity")) = false := by decide
    have hc2 : (incl (jsToLower ("What are the security threats?")) ("location") ||
      incl (jsToLower ("What are the security threats?")) ("country") ||
      incl (jsToLower ("What are the security threats?")) ("geographic") ||
      incl (jsToLower ("What are the security threats?")) ("geograph")) = false := by decide
    have hc3 : (incl (jsToLower ("What are the security threats?")) ("security") ||
      incl (jsToLower ("What are the security threats?")) ("threat") ||
      incl (jsToLower ("What are the security threats?")) ("vpn") ||
      incl (jsToLower ("What are the security threats?")) ("bot")) = true := by decide
    simp [generateFallbackChart, hc1, hc2, hc3]
  have hsec : securityChart d =
      ⟨"pie", [("VPN Detected", 40), ("Clean Requests", 110)], "Security Threat Analysis"⟩ := by
    simp only [securityChart, hvpn, hbot, hclean]
    decide
  refine ⟨rfl, rfl, ?_, by decide, by decide, ?_⟩
  · show AnswerVal.text (generateFallbackAnswer d
      (extractQuestionContext ("What are the security threats?")).1) = _
    rw [hq, hans]
  · show (generateFallbackChart d
      (extractQuestionContext ("What are the security threats?")).1).map ChartRepr.built = _
    rw [hq, hchart, hsec]
    rfl

set_option maxRecDepth 4000 in
/-- Witness for C3 at a concrete 150-event collection. -/
theorem C3_security_scenario_witness :
    (analyzeData ("fallback") false (Except.error ("down")) d150
      ("What are the security threats?")).success = false ∧
    (analyzeData ("fallback") false (Except.error ("down")) d150
      ("What are the security threats?")).provider = "fallback" ∧
    (analyzeData ("fallback") false (Except.error ("down")) d150
      ("What are the security threats?")).answer =
      AnswerVal.text ("Security analysis shows 40 VPN connections and 0 bot detections out of 150 total events. This represents 26.7% potential security threats.") ∧
    incl ("Security analysis shows 40 VPN connections and 0 bot detections out of 150 total events. This represents 26.7% potential security threats.") ("40") = true ∧
    incl ("Security analysis shows 40 VPN connections and 0 bot detections out of 150 total events. This represents 26.7% potential security threats.") ("26.7%") = true ∧
    (analyzeData ("fallback") false (Except.error ("down")) d150
      ("What are the security threats?")).chart =
      some (ChartRepr.built ⟨"pie", [("VPN Detected", 40), ("Clean Requests", 110)],
        "Security Threat Analysis"⟩) :=
  C3_security_scenario d150 (Except.error ("down")) (by decide) (by decide) (by decide)

/-- C5, counterexample: the claim requires the answer to equal the trimmed
raw response; for the empty response (which contains no parseable JSON)
the source substitutes a canned sentence instead of the empty trimmed
text. -/
theorem C5_counterexample :
    (analyzeData ("openai") true (Except.ok "") [] ("show me a chart")).success = true ∧
    (analyzeData ("openai") true (Except.ok "") [] ("show me a chart")).answer =
      AnswerVal.text ("Analysis completed successfully.") ∧
    jsTrim "" = "" ∧
    ("Analysis completed successfully." : String) ≠ "" :=
  ⟨rfl, rfl, rfl, by decide⟩

/-- C5, amended: for a chart-requiring question, when the configured
provider succeeds with a non-empty text in which no JSON object with truthy
analysis and chart members can be located, the result has success=true,
chart=null, the trimmed raw text as answer, and the backend actually used
as provider (never fallback); the empty response text instead yields a
fixed sentence. -/
theorem C5_parse_degradation (provider respText : String)
    (d : List FingerprintEvent) (q : String)
    (hp : provider = "ollama" ∨ provider = "openai")
    (hc : questionRequiresChart (extractQuestionContext q).1 = true)
    (he : chartEnvelope respText = none)
    (hne : respText ≠ "") :
    (analyzeData provider true (Except.ok respText) d q).success = true ∧
    (analyzeData provider true (Except.ok respText) d q).chart = none ∧
    (analyzeData provider true (Except.ok respText) d q).answer =
      AnswerVal.text (jsTrim respText) ∧
    (analyzeData provider true (Except.ok respText) d q).provider = provider ∧
    provider ≠ "fallback" := by
  have hbne : (respText == "") = false := beq_eq_false_iff_ne.mpr hne
  have hparse : parseAIResponse respText
      (questionRequiresChart (extractQuestionContext q).1) =
      ⟨AnswerVal.text (jsTrim respText), none⟩ := by
    rw [hc]
    simp [parseAIResponse, he, hbne]
  rcases hp with hp | hp <;> subst hp
  · exact ⟨by simp [analyzeData, hparse], by simp [analyzeData, hparse],
      by simp [analyzeData, hparse], by simp [analyzeData, hparse], by decide⟩
  · exact ⟨by simp [analyzeData, hparse], by simp [analyzeData, hparse],
      by simp [analyzeData, hparse], by simp [analyzeData, hparse], by decide⟩

/-- Witness for C5: plain prose from the cloud backend for a chart
question. -/
theorem C5_parse_degradation_witness :
    (analyzeData ("openai") true (Except.ok ("The traffic is mostly clean prose."))
      [] ("show me a chart")).success = true ∧
    (analyzeData ("openai") true (Except.ok ("The traffic is mostly clean prose."))
      [] ("show me a chart")).chart = none ∧
    (analyzeData ("openai") true (Except.ok ("The traffic is mostly clean prose."))
      [] ("show me a chart")).answer =
      AnswerVal.text (jsTrim ("The traffic is mostly clean prose.")) ∧
    (analyzeData ("openai") true (Except.ok ("The traffic is mostly clean prose."))
      [] ("show me a chart")).provider = "openai" ∧
    ("openai" : String) ≠ "fallback" :=
  C5_parse_degradation ("openai") ("The traffic is mostly clean prose.") []
    ("show me a chart") (Or.inr rfl) (by decide) rfl (by decide)

/-- C8, counterexample: a provider response of exactly two lines prefixed
"1." and "2." does not yield those questions with prefixes stripped — the
parser drops such lines entirely, leaving fewer than two, so the canned
fallback pair is returned. -/
theorem C8_counterexample :
    generateFollowUpQuestions ("openai") true
      (Except.ok ("1. What drives the VPN spike?\n2. Which countries are affected?"))
      ("overview") [] false = ["Show data patterns", "Analyze insights"] ∧
    (["Show data patterns", "Analyze insights"] : List String) ≠
      ["What drives the VPN spike?", "Which countries are affected?"] :=
  ⟨by decide, by decide⟩

/-- C8, amended: the primary-path parsing splits the response into lines,
trims them, and drops empty lines and lines beginning with "1." or "2."
(numbering prefixes are not stripped); if fewer than 2 lines survive the
canned fallback pair is returned (there is no padding), otherwise the
first 2 surviving lines are returned; in particular a two-line numbered
response parses to no usable lines. -/
theorem C8_followup_parsing (provider respText aiResponse : String)
    (d : List FingerprintEvent) (isDeeper : Bool)
    (hp : provider = "ollama" ∨ provider = "openai") :
    ((parseFollowUps respText).length < 2 →
      generateFollowUpQuestions provider true (Except.ok respText) aiResponse d isDeeper =
        generateFallbackFollowUpQuestions aiResponse d isDeeper) ∧
    (2 ≤ (parseFollowUps respText).length →
      generateFollowUpQuestions provider true (Except.ok respText) aiResponse d isDeeper =
        parseFollowUps respText) ∧
    parseFollowUps ("1. What drives the VPN spike?\n2. Which countries are affected?") =
      [] := by
  have key : generateFollowUpQuestions provider true (Except.ok respText)
      aiResponse d isDeeper =
      if 2 ≤ (parseFollowUps respText).length then parseFollowUps respText
      else generateFallbackFollowUpQuestions aiResponse d isDeeper := by
    rcases hp with hp | hp <;> subst hp <;> rfl
  refine ⟨?_, ?_, by decide⟩
  · intro h
    rw [key, if_neg (by omega)]
  · intro h
    rw [key, if_pos h]

/-- Witness for C8: the numbered two-line response falls back. -/
theorem C8_followup_parsing_witness :
    generateFollowUpQuestions ("openai") true
      (Except.ok ("1. What drives the VPN spike?\n2. Which countries are affected?"))
      ("overview") [] false =
      generateFallbackFollowUpQuestions ("overview") [] false ∧
    parseFollowUps ("1. What drives the VPN spike?\n2. Which countries are affected?") =
      [] :=
  ⟨(C8_followup_parsing ("openai")
      ("1. What drives the VPN spike?\n2. Which countries are affected?")
      ("overview") [] false (Or.inr rfl)).1 (by decide),
   (C8_followup_parsing ("openai")
      ("1. What drives the VPN spike?\n2. Which countries are affected?")
      ("overview") [] false (Or.inr rfl)).2.2⟩

/-- C9 (confirmed): the geographic and browser fallback charts never
contain an Unknown-labelled point, and when no event has a known country
(respectively browser) — including the empty collection — the builder
returns a bar chart with the single placeholder point ("No Data", 1)
rather than no chart or an empty-points chart. -/
theorem C9_placeholder_charts (d : List FingerprintEvent) (q : String) :
    ((incl (jsToLower q) ("visitor") || incl (jsToLower q) ("activity")) = false →
      (incl (jsToLower q) ("location") || incl (jsToLower q) ("country") ||
        incl (jsToLower q) ("geographic") || incl (jsToLower q) ("geograph")) = true →
      generateFallbackChart d q = some (geoChart d) ∧
      (geoChart d).ctype = "bar" ∧
      (geoChart d).data.all (fun p => p.1 != "Unknown") = true ∧
      (d.all (fun e => e.country == "" || e.country == "Unknown") = true →
        (geoChart d).data = [("No Data", 1)])) ∧
    ((incl (jsToLower q) ("visitor") || incl (jsToLower q) ("activity")) = false →
      (incl (jsToLower q) ("location") || incl (jsToLower q) ("country") ||
        incl (jsToLower q) ("geographic") || incl (jsToLower q) ("geograph")) = false →
      (incl (jsToLower q) ("security") || incl (jsToLower q) ("threat") ||
        incl (jsToLower q) ("vpn") || incl (jsToLower q) ("bot")) = false →
      (incl (jsToLower q) ("browser") || incl (jsToLower q) ("device") ||
        incl (jsToLower q) ("os")) = true →
      generateFallbackChart d q = some (browserChart d) ∧
      (browserChart d).ctype = "bar" ∧
      (browserChart d).data.all (fun p => p.1 != "Unknown") = true ∧
      (d.all (fun e => e.browser == "" || e.browser == "Unknown") = true →
        (browserChart d).data = [("No Data", 1)])) := by
  constructor
  · intro hv hg
    refine ⟨?_, rfl, geoChart_no_unknown d, geoChart_placeholder d⟩
    simp only [Bool.or_eq_true] at hg
    rcases hg with ((h | h) | h) | h <;> simp [generateFallbackChart, hv, h]
  · intro hv hg hs hb
    refine ⟨?_, rfl, browserChart_no_unknown d, browserChart_placeholder d⟩
    simp only [Bool.or_eq_true] at hb
    rcases hb with (h | h) | h <;> simp [generateFallbackChart, hv, hg, hs, h]

/-- Witness for C9 on a collection with no known country or browser. -/
theorem C9_placeholder_charts_witness :
    (generateFallbackChart [evBlank] ("country") = some (geoChart [evBlank]) ∧
     (geoChart [evBlank]).ctype = "bar" ∧
     (geoChart [evBlank]).data.all (fun p => p.1 != "Unknown") = true ∧
     ([evBlank].all (fun e => e.country == "" || e.country == "Unknown") = true →
       (geoChart [evBlank]).data = [("No Data", 1)])) ∧
    (generateFallbackChart [evBlank] ("browser") = some (browserChart [evBlank]) ∧
     (browserChart [evBlank]).ctype = "bar" ∧
     (browserChart [evBlank]).data.all (fun p => p.1 != "Unknown") = true ∧
     ([evBlank].all (fun e => e.browser == "" || e.browser == "Unknown") = true →
       (browserChart [evBlank]).data = [("No Data", 1)])) :=
  ⟨(C9_placeholder_charts [evBlank] ("country")).1 (by decide) (by decide),
   (C9_placeholder_charts [evBlank] ("browser")).2 (by decide) (by decide) (by decide)
     (by decide)⟩

/-- Witness for C10: one event flagged both VPN and bot reports 200.0%. -/
theorem C10_security_pct_witness :
    generateFallbackAnswer [evBoth] ("security") =
      "Security analysis shows " ++ (Nat.repr ([evBoth].countP (·.vpnDetected)) ++
        " VPN connections and " ++ Nat.repr ([evBoth].countP (·.botDetected)) ++
        " bot detections out of " ++ Nat.repr ([evBoth].length) ++
        " total events. This represents " ++
        toFixed1 (((([evBoth].countP (·.vpnDetected) : ℚ) +
          ([evBoth].countP (·.botDetected) : ℚ)) / (([evBoth].length : ℚ))) * 100) ++
        "% potential security threats.") ∧
    incl (generateFallbackAnswer [evBoth] ("security")) ("200.0%") = true :=
  C10_security_pct [evBoth] ("security") (by decide) (by decide) (by simp)

end FPJS
